import Mathlib

/-!
Shallow embedding of the mieuxvoter backend core: the election lookup
function of app/crud.py and the three request handlers of
election/views.py (election details, vote submission, result retrieval).
Wall-clock time (the round(time()) of the Python source) is passed
explicitly as an integer; database tables are lists of records; each
handler is a pure function from its inputs and the shared state to a
response (and, for the vote handler, an updated state).
-/

/-- Election record. Fields are the ones the embedded code reads:
the primary key id, the human-readable ref, the candidate names, the
number of grades, the voting window boundaries, and the two flags. -/
structure Election where
  id : Nat
  ref : Nat
  candidates : List String
  num_grades : Nat
  start_at : Int
  finish_at : Int
  on_invitation_only : Bool
  restrict_results : Bool
  deriving Repr, DecidableEq

/-- Token record, as in the Django model: a primary key id, the election
it belongs to, the invited email, and the used flag. -/
structure Token where
  id : Nat
  election_id : Nat
  email : String
  used : Bool
  deriving Repr, DecidableEq

/-- Error codes E1 to E9 declared at the top of election/views.py. -/
inductive ErrorCode where
  | unknownElection
  | ongoingElection
  | noRecordedVotes
  | electionNotStarted
  | electionFinished
  | invitationOnly
  | unknownToken
  | usedToken
  | wrongElection
  deriving Repr, DecidableEq

/-- Outcome of get_election in app/crud.py: the election found, or one of
the raised errors (InconsistentDatabaseError on the id query, on the ref
query, or NotFoundError). -/
inductive Lookup where
  | found (e : Election)
  | inconsistentById
  | inconsistentByRef
  | notFound
  deriving Repr, DecidableEq

/-- The first query of get_election: elections whose primary key equals
the identifier. -/
def electionsById (db : List Election) (x : Nat) : List Election :=
  db.filter (fun e => e.id == x)

/-- The second query of get_election: elections whose ref equals the
identifier. -/
def electionsByRef (db : List Election) (x : Nat) : List Election :=
  db.filter (fun e => e.ref == x)

/-- get_election from app/crud.py: query by id; raise Inconsistent if the
id query returns more than one row, return its row if it returns exactly
one, and only otherwise query by ref, with the same multiplicity check,
raising NotFound when both queries are empty. -/
def get_election (db : List Election) (x : Nat) : Lookup :=
  match electionsById db x with
  | [e] => .found e
  | _ :: _ :: _ => .inconsistentById
  | [] =>
    match electionsByRef db x with
    | [e] => .found e
    | _ :: _ :: _ => .inconsistentByRef
    | [] => .notFound

/-- Django lookup Election.objects.get(id=pk): the primary key is unique,
so the first match is the only one. -/
def djangoGetElection (db : List Election) (pk : Nat) : Option Election :=
  db.find? (fun e => e.id == pk)

/-- Response of ElectionDetailsAPIView.get: an error code or the election
serialized back. -/
inductive DetailsResult where
  | err (c : ErrorCode)
  | ok (e : Election)
  deriving Repr, DecidableEq

/-- ElectionDetailsAPIView.get from election/views.py: look the election
up by primary key (unknown election error if absent), then reject with
the election-not-started error while now is before start_at, otherwise
return the details. -/
def ElectionDetailsAPIView_get (db : List Election) (pk : Nat) (now : Int) :
    DetailsResult :=
  match djangoGetElection db pk with
  | none => .err .unknownElection
  | some e => if now < e.start_at then .err .electionNotStarted else .ok e

/-- Response of VoteAPIView.create: an error code or a 201 created. -/
inductive VoteResult where
  | err (c : ErrorCode)
  | created
  deriving Repr, DecidableEq

/-- The mutable state the vote handler touches: the token table and the
vote table (each vote kept as its grade vector). -/
structure VoteState where
  tokens : List Token
  votes : List (List Nat)
  deriving Repr, DecidableEq

/-- Token.objects.get(election=election, id=token): lookup by primary key
scoped to the election. -/
def findToken (tokens : List Token) (eid tid : Nat) : Option Token :=
  tokens.find? (fun t => t.election_id == eid && t.id == tid)

/-- The save of the fetched token object after setting used to true:
rewrites that row of the token table. -/
def markTokenUsed (tokens : List Token) (eid tid : Nat) : List Token :=
  tokens.map (fun t =>
    if t.election_id == eid && t.id == tid then { t with used := true } else t)

/-- The perform_create call of VoteAPIView.create: the database insert of
the vote row. The insert can raise IntegrityError (for instance when the
number of grades differs from the number of candidates); whether it does
is decided by the database, modelled by the writeOk argument. On success
the vote row is appended; on IntegrityError the handler answers with the
wrong-election error E9 and the vote table is unchanged. -/
def performCreate (grades : List Nat) (writeOk : Bool) (st : VoteState) :
    VoteResult × VoteState :=
  if writeOk then (.created, { st with votes := st.votes ++ [grades] })
  else (.err .wrongElection, st)

/-- VoteAPIView.create from election/views.py, with now standing for
round(time()). The handler rejects with the election-finished error when
now is at or past finish_at; it performs no start_at check. On an
invitation-only election it then requires a token parameter, looks the
token up scoped to the election, rejects unknown or already used tokens,
and otherwise sets the used flag and saves the token BEFORE the vote
insert runs; the save is not undone when the insert fails. -/
def VoteAPIView_create (e : Election) (now : Int) (tokenParam : Option Nat)
    (grades : List Nat) (writeOk : Bool) (st : VoteState) :
    VoteResult × VoteState :=
  if e.finish_at ≤ now then (.err .electionFinished, st)
  else if e.on_invitation_only then
    match tokenParam with
    | none => (.err .invitationOnly, st)
    | some tid =>
      match findToken st.tokens e.id tid with
      | none => (.err .unknownToken, st)
      | some tok =>
        if tok.used then (.err .usedToken, st)
        else
          performCreate grades writeOk
            { st with tokens := markTokenUsed st.tokens e.id tid }
  else
    performCreate grades writeOk st

/-- Response of ResultAPIView.get: an error code or the ranking computed
by the majority judgment library. -/
inductive ResultResponse (α : Type) where
  | err (c : ErrorCode)
  | ok (ranking : α)
  deriving Repr, DecidableEq

/-- ResultAPIView.get from election/views.py. The majority judgment tally
(libs.majority_judgment, an external library) is passed as the function
tallyFn; the handler looks the election up by primary key, rejects with
the ongoing-election error when restrict_results is set and now is before
finish_at, rejects with the no-recorded-vote error when the vote table
for the election is empty, and only otherwise invokes the tally. -/
def ResultAPIView_get {α : Type} (tallyFn : List (List Nat) → α)
    (db : List Election) (pk : Nat) (now : Int) (votes : List (List Nat)) :
    ResultResponse α :=
  match djangoGetElection db pk with
  | none => .err .unknownElection
  | some e =>
    if e.restrict_results = true ∧ now < e.finish_at then .err .ongoingElection
    else if votes.length = 0 then .err .noRecordedVotes
    else .ok (tallyFn votes)

/-- Progress of one vote request through the invitation-only path,
decomposed at the three database round trips the source makes in
sequence with no enclosing transaction: read the token and check its used
flag; save the token with used set to true; insert the vote. -/
inductive ReqPhase where
  | start
  | checked
  | marked
  | finished (r : VoteResult)
  deriving Repr, DecidableEq

/-- One database round trip of one request against the shared state. -/
def stepReq (e : Election) (tid : Nat) (grades : List Nat) :
    ReqPhase → VoteState → ReqPhase × VoteState
  | .start, st =>
    match findToken st.tokens e.id tid with
    | none => (.finished (.err .unknownToken), st)
    | some tok =>
      if tok.used then (.finished (.err .usedToken), st) else (.checked, st)
  | .checked, st =>
    (.marked, { st with tokens := markTokenUsed st.tokens e.id tid })
  | .marked, st => (.finished .created, { st with votes := st.votes ++ [grades] })
  | .finished r, st => (.finished r, st)

/-- Interleaved execution of two concurrent requests A and B over the
shared state: a schedule entry true runs the next round trip of A, false
runs the next round trip of B. -/
def runSchedule (e : Election) (tid : Nat) (ga gb : List Nat) :
    List Bool → ReqPhase × ReqPhase × VoteState → ReqPhase × ReqPhase × VoteState
  | [], s => s
  | true :: rest, (pa, pb, st) =>
    let next := stepReq e tid ga pa st
    runSchedule e tid ga gb rest (next.1, pb, next.2)
  | false :: rest, (pa, pb, st) =>
    let next := stepReq e tid gb pb st
    runSchedule e tid ga gb rest (pa, next.1, next.2)

/-- Concrete election used in counterexamples: not invitation-only,
window from 10 to 20. -/
def e0 : Election :=
  { id := 1, ref := 0, candidates := ["A", "B"], num_grades := 3,
    start_at := 10, finish_at := 20,
    on_invitation_only := false, restrict_results := false }

/-- Concrete invitation-only election, window from 0 to 100. -/
def einv : Election :=
  { id := 1, ref := 0, candidates := ["A", "B"], num_grades := 3,
    start_at := 0, finish_at := 100,
    on_invitation_only := true, restrict_results := false }

/-- Concrete unused token for election einv. -/
def tok7 : Token :=
  { id := 7, election_id := 1, email := "voter@example.org", used := false }

/-- Initial state holding the one unused token and no vote. -/
def st7 : VoteState := { tokens := [tok7], votes := [] }

/-- Election with id 1 and ref 5, used in the lookup counterexample. -/
def eA : Election :=
  { id := 1, ref := 5, candidates := ["A"], num_grades := 2,
    start_at := 0, finish_at := 10,
    on_invitation_only := false, restrict_results := false }

/-- Election with id 2 and ref 1: its ref collides with the id of eA. -/
def eB : Election :=
  { id := 2, ref := 1, candidates := ["B"], num_grades := 2,
    start_at := 0, finish_at := 10,
    on_invitation_only := false, restrict_results := false }

/-- Database holding eA and eB: identifier 1 resolves to eA by id and to
eB by ref, so two records match the same identifier. -/
def db4 : List Election := [eA, eB]

/-- C4 counterexample: with identifier 1 against db4, two records match
the identifier (eA by id, eB by ref), yet get_election returns eA instead
of raising an inconsistency error, silently favoring the id index. -/
theorem get_election_favors_id_counterexample :
    (db4.filter (fun r => r.id == 1 || r.ref == 1)).length = 2
    ∧ get_election db4 1 = .found eA
    ∧ get_election db4 1 ≠ .inconsistentById
    ∧ get_election db4 1 ≠ .inconsistentByRef := by
  decide

/-- C4 (amended): get_election raises the inconsistency error exactly
when the id query returns at least two rows, or when the id query is
empty and the ref query returns at least two rows; it returns the unique
id match when the id query returns exactly one row (regardless of the ref
query), returns the unique ref match when the id query is empty, and
raises NotFound exactly when both queries are empty. -/
theorem get_election_characterization (db : List Election) (x : Nat) :
    (get_election db x = .inconsistentById ↔ 2 ≤ (electionsById db x).length)
    ∧ (get_election db x = .inconsistentByRef ↔
        electionsById db x = [] ∧ 2 ≤ (electionsByRef db x).length)
    ∧ (get_election db x = .notFound ↔
        electionsById db x = [] ∧ electionsByRef db x = [])
    ∧ (∀ e, get_election db x = .found e ↔
        electionsById db x = [e] ∨
          (electionsById db x = [] ∧ electionsByRef db x = [e])) := by
  rcases hid : electionsById db x with _ | ⟨a, _ | ⟨b, t⟩⟩
  · rcases href : electionsByRef db x with _ | ⟨c, _ | ⟨d, u⟩⟩
    · simp [get_election, hid, href]
    · simp [get_election, hid, href]
    · simp [get_election, hid, href]
  · simp [get_election, hid]
  · simp [get_election, hid]

/-- C10: if the id query returns exactly one row, get_election returns
that row, and whenever the id query is non-empty the outcome depends only
on the id query: two databases whose id queries agree (their ref columns
arbitrary) give the same outcome, so the ref index is never consulted
once an id match exists. -/
theorem get_election_id_precedence (db1 db2 : List Election) (x : Nat)
    (e : Election) :
    (electionsById db1 x = [e] → get_election db1 x = .found e)
    ∧ (electionsById db1 x = electionsById db2 x → electionsById db1 x ≠ [] →
        get_election db1 x = get_election db2 x) := by
  constructor
  · intro h
    simp [get_election, h]
  · intro h hne
    rcases hcase : electionsById db1 x with _ | ⟨a, _ | ⟨b, t⟩⟩
    · exact absurd hcase hne
    · have h2 : electionsById db2 x = [a] := by rw [← h, hcase]
      simp [get_election, hcase, h2]
    · have h2 : electionsById db2 x = a :: b :: t := by rw [← h, hcase]
      simp [get_election, hcase, h2]

/-- Witness for the id-precedence theorem at a concrete database: the id
match eA is returned, and dropping eB (the ref match) does not change the
outcome. -/
theorem get_election_id_precedence_witness :
    get_election db4 1 = .found eA ∧ get_election db4 1 = get_election [eA] 1 := by
  have h := get_election_id_precedence db4 [eA] 1 eA
  exact ⟨h.1 (by decide), h.2 (by decide) (by decide)⟩

/-- When now is strictly before finish_at the vote handler never answers
with a time-window error: every remaining branch yields one of the
invitation errors, the wrong-election error, or a created response. -/
lemma vote_result_cases (e : Election) (now : Int) (tokenParam : Option Nat)
    (grades : List Nat) (writeOk : Bool) (st : VoteState)
    (hfin : ¬ e.finish_at ≤ now) :
    (VoteAPIView_create e now tokenParam grades writeOk st).1 ≠ .err .electionFinished
    ∧ (VoteAPIView_create e now tokenParam grades writeOk st).1
        ≠ .err .electionNotStarted := by
  unfold VoteAPIView_create performCreate
  rw [if_neg hfin]
  by_cases hio : e.on_invitation_only = true
  · simp only [hio, if_true]
    cases tokenParam with
    | none => simp
    | some tid =>
      cases hft : findToken st.tokens e.id tid with
      | none => simp [hft]
      | some tok =>
        by_cases hu : tok.used = true
        · simp [hft, hu]
        · cases writeOk <;> simp [hft, hu]
  · cases writeOk <;> simp [hio]

/-- C1 (amended): the vote handler fails with the election-finished error
exactly when now is at or past finish_at, and it never returns the
election-not-started error: there is no start_at check on vote
submission. -/
theorem vote_window_check (e : Election) (now : Int) (tokenParam : Option Nat)
    (grades : List Nat) (writeOk : Bool) (st : VoteState) :
    ((VoteAPIView_create e now tokenParam grades writeOk st).1
        = .err .electionFinished ↔ e.finish_at ≤ now)
    ∧ (VoteAPIView_create e now tokenParam grades writeOk st).1
        ≠ .err .electionNotStarted := by
  by_cases hfin : e.finish_at ≤ now
  · constructor
    · simp [VoteAPIView_create, hfin]
    · simp [VoteAPIView_create, hfin]
  · have h := vote_result_cases e now tokenParam grades writeOk st hfin
    exact ⟨⟨fun hr => absurd hr h.1, fun hle => absurd hle hfin⟩, h.2⟩

/-- Witness for the amended window theorem at now past finish_at. -/
theorem vote_window_check_witness :
    ((VoteAPIView_create e0 25 none [1, 0] true ⟨[], []⟩).1
        = .err .electionFinished ↔ e0.finish_at ≤ (25 : Int))
    ∧ (VoteAPIView_create e0 25 none [1, 0] true ⟨[], []⟩).1
        ≠ .err .electionNotStarted :=
  vote_window_check e0 25 none [1, 0] true ⟨[], []⟩

/-- C1 counterexample: at now 5, strictly before the start_at 10 of e0,
the vote is accepted with a created response instead of failing with the
election-not-started error the claim requires. -/
theorem vote_accepted_before_start_counterexample :
    ((5 : Int) < e0.start_at)
    ∧ (VoteAPIView_create e0 5 none [1, 0] true ⟨[], []⟩).1 = .created
    ∧ (VoteAPIView_create e0 5 none [1, 0] true ⟨[], []⟩).1
        ≠ .err .electionNotStarted := by
  decide

/-- C7: on an invitation-only election, once the finish_at check passes,
a missing token parameter fails with the invitation-required error, an
unknown token (no match scoped to the election) fails with the
unknown-token error, and a token whose used flag is set fails with the
already-used error; when the election is not invitation-only the outcome
is identical whatever token parameter is supplied. -/
theorem vote_invitation_gate (e : Election) (now : Int) (grades : List Nat)
    (writeOk : Bool) (st : VoteState) :
    (e.on_invitation_only = true → ¬ e.finish_at ≤ now →
      ((VoteAPIView_create e now none grades writeOk st).1 = .err .invitationOnly
      ∧ (∀ tid, findToken st.tokens e.id tid = none →
          (VoteAPIView_create e now (some tid) grades writeOk st).1
            = .err .unknownToken)
      ∧ (∀ tid tok, findToken st.tokens e.id tid = some tok → tok.used = true →
          (VoteAPIView_create e now (some tid) grades writeOk st).1
            = .err .usedToken)))
    ∧ (e.on_invitation_only = false → ∀ t1 t2 : Option Nat,
        VoteAPIView_create e now t1 grades writeOk st
          = VoteAPIView_create e now t2 grades writeOk st) := by
  constructor
  · intro hio hfin
    refine ⟨?_, ?_, ?_⟩
    · simp [VoteAPIView_create, if_neg hfin, hio]
    · intro tid hft
      simp [VoteAPIView_create, if_neg hfin, hio, hft]
    · intro tid tok hft hu
      simp [VoteAPIView_create, if_neg hfin, hio, hft, hu]
  · intro hio t1 t2
    simp [VoteAPIView_create, hio]

/-- Witness for the invitation gate theorem: einv is invitation-only and
the three failures are observed at concrete inputs. -/
theorem vote_invitation_gate_witness :
    (VoteAPIView_create einv 5 none [1, 0] true st7).1 = .err .invitationOnly
    ∧ (VoteAPIView_create einv 5 (some 9) [1, 0] true st7).1 = .err .unknownToken := by
  have h := (vote_invitation_gate einv 5 [1, 0] true st7).1 rfl (by decide)
  exact ⟨h.1, h.2.1 9 (by decide)⟩

/-- Saving the token row with used set does not change its keys, so the
scoped lookup afterwards finds the same row with its flag set. -/
lemma findToken_markTokenUsed (tokens : List Token) (eid tid : Nat) :
    findToken (markTokenUsed tokens eid tid) eid tid
      = (findToken tokens eid tid).map (fun t => { t with used := true }) := by
  unfold findToken markTokenUsed
  rw [List.find?_map]
  have hpf : ((fun x : Token => x.election_id == eid && x.id == tid) ∘
      (fun x : Token => if x.election_id == eid && x.id == tid
          then { x with used := true } else x))
      = (fun x : Token => x.election_id == eid && x.id == tid) := by
    funext x
    by_cases hx : (x.election_id == eid && x.id == tid) = true
    · simp [Function.comp, hx]
    · simp [Function.comp, hx]
  rw [hpf]
  cases hfind : tokens.find? (fun x : Token => x.election_id == eid && x.id == tid) with
  | none => rfl
  | some t0 =>
    have hp := List.find?_some hfind
    simp only [Bool.and_eq_true, beq_iff_eq] at hp
    simp [hp.1, hp.2]

/-- C9: on an invitation-only election, once the window and token checks
pass on an unused token, the token table is rewritten with the used flag
set whatever the vote insert then does; in particular when the insert
fails the handler answers with the wrong-election error, the token is
left marked used, and no vote row is recorded. -/
theorem vote_token_saved_before_insert (e : Election) (now : Int) (tid : Nat)
    (grades : List Nat) (st : VoteState) (tok : Token)
    (hfin : ¬ e.finish_at ≤ now) (hio : e.on_invitation_only = true)
    (hft : findToken st.tokens e.id tid = some tok) (hu : tok.used = false) :
    (∀ writeOk, (VoteAPIView_create e now (some tid) grades writeOk st).2.tokens
        = markTokenUsed st.tokens e.id tid)
    ∧ (VoteAPIView_create e now (some tid) grades false st).1 = .err .wrongElection
    ∧ findToken (VoteAPIView_create e now (some tid) grades false st).2.tokens
        e.id tid = some { tok with used := true }
    ∧ (VoteAPIView_create e now (some tid) grades false st).2.votes = st.votes := by
  have hbranch : ∀ writeOk, VoteAPIView_create e now (some tid) grades writeOk st
      = performCreate grades writeOk
          { st with tokens := markTokenUsed st.tokens e.id tid } := by
    intro w
    simp [VoteAPIView_create, if_neg hfin, hio, hft, hu]
  refine ⟨?_, ?_, ?_, ?_⟩
  · intro w
    rw [hbranch w]
    cases w <;> simp [performCreate]
  · rw [hbranch false]
    simp [performCreate]
  · rw [hbranch false]
    simp [performCreate, findToken_markTokenUsed, hft]
  · rw [hbranch false]
    simp [performCreate]

/-- Witness for the save-before-insert theorem at a concrete failing
insert: the handler answers with the wrong-election error and the token
is left used. -/
theorem vote_token_saved_before_insert_witness :
    (VoteAPIView_create einv 5 (some 7) [1, 0] false st7).1 = .err .wrongElection
    ∧ findToken (VoteAPIView_create einv 5 (some 7) [1, 0] false st7).2.tokens
        einv.id 7 = some { tok7 with used := true } := by
  have h := vote_token_saved_before_insert einv 5 7 [1, 0] st7 tok7
    (by decide) rfl (by decide) rfl
  exact ⟨h.2.1, h.2.2.1⟩

/-- C2: evaluation at the failing input. With the unused token 7 and a
vote insert that raises IntegrityError, the handler answers with the
wrong-election error yet the token table now holds the token with used
set to true and no vote row was recorded: the two writes are not one
atomic unit. -/
theorem token_consumed_on_failed_vote_write :
    (VoteAPIView_create einv 5 (some 7) [1, 0] false st7).1 = .err .wrongElection
    ∧ (VoteAPIView_create einv 5 (some 7) [1, 0] false st7).2.tokens.map Token.used
        = [true]
    ∧ (VoteAPIView_create einv 5 (some 7) [1, 0] false st7).2.votes = [] := by
  decide

/-- C3: evaluation of the interleaving model. Under the schedule where
both requests read the token before either saves it, both finish with a
created response and two vote rows are recorded from the one single-use
token; under the serial schedule the first request is accepted and the
second fails with the already-used error, one vote recorded. -/
theorem concurrent_token_double_spend :
    (runSchedule einv 7 [1, 0] [2, 0] [true, false, true, true, false, false]
        (.start, .start, st7)).1 = .finished .created
    ∧ (runSchedule einv 7 [1, 0] [2, 0] [true, false, true, true, false, false]
        (.start, .start, st7)).2.1 = .finished .created
    ∧ (runSchedule einv 7 [1, 0] [2, 0] [true, false, true, true, false, false]
        (.start, .start, st7)).2.2.votes.length = 2
    ∧ (runSchedule einv 7 [1, 0] [2, 0] [true, true, true, false, false, false]
        (.start, .start, st7)).1 = .finished .created
    ∧ (runSchedule einv 7 [1, 0] [2, 0] [true, true, true, false, false, false]
        (.start, .start, st7)).2.1 = .finished (.err .usedToken)
    ∧ (runSchedule einv 7 [1, 0] [2, 0] [true, true, true, false, false, false]
        (.start, .start, st7)).2.2.votes.length = 1 := by
  decide

/-- C5: on an election found by the lookup, the result request fails with
the ongoing-election error exactly when restrict_results is set and now
is before finish_at; in particular with restrict_results false the
visibility check never rejects, at any time and for any vote table,
including an empty one. -/
theorem result_visibility_check {α : Type} (tallyFn : List (List Nat) → α)
    (db : List Election) (pk : Nat) (now : Int) (votes : List (List Nat))
    (e : Election) (hfound : djangoGetElection db pk = some e) :
    ResultAPIView_get tallyFn db pk now votes = .err .ongoingElection
      ↔ (e.restrict_results = true ∧ now < e.finish_at) := by
  unfold ResultAPIView_get
  rw [hfound]
  by_cases hv : (e.restrict_results = true ∧ now < e.finish_at)
  · simp [hv]
  · simp only [if_neg hv]
    by_cases hn : votes.length = 0 <;> simp [hn, hv]

/-- Witness for the visibility theorem: e0 has restrict_results false and
the result request at a time before finish_at is not rejected as
ongoing. -/
theorem result_visibility_check_witness :
    ResultAPIView_get (fun v => v.length) [e0] 1 5 [[1, 0]] = .err .ongoingElection
      ↔ (e0.restrict_results = true ∧ (5 : Int) < e0.finish_at) :=
  result_visibility_check (fun v => v.length) [e0] 1 5 [[1, 0]] e0 (by decide)

/-- C6: on an election found by the lookup and past the visibility check,
an empty vote table fails with the no-recorded-vote error and the answer
does not depend on the tally function (the tally is not invoked), while a
non-empty vote table answers with the tally of the votes. -/
theorem result_no_votes_guard {α : Type} (f g : List (List Nat) → α)
    (db : List Election) (pk : Nat) (now : Int) (votes : List (List Nat))
    (e : Election) (hfound : djangoGetElection db pk = some e)
    (hvis : ¬ (e.restrict_results = true ∧ now < e.finish_at)) :
    (votes = [] → ResultAPIView_get f db pk now votes = .err .noRecordedVotes)
    ∧ (votes = [] → ResultAPIView_get f db pk now votes
        = ResultAPIView_get g db pk now votes)
    ∧ (votes ≠ [] → ResultAPIView_get f db pk now votes = .ok (f votes)) := by
  unfold ResultAPIView_get
  rw [hfound]
  refine ⟨?_, ?_, ?_⟩
  · intro h
    subst h
    simp [hvis]
  · intro h
    subst h
    simp [hvis]
  · intro h
    simp [hvis, List.length_eq_zero, h]

/-- Witness for the no-votes theorem: a closed election with
restrict_results false and an empty vote table fails with the
no-recorded-vote error. -/
theorem result_no_votes_guard_witness :
    ResultAPIView_get (fun v => v.length) [e0] 1 25 [] = .err .noRecordedVotes := by
  have h := result_no_votes_guard (fun v => v.length) (fun v => v.length + 1)
    [e0] 1 25 [] e0 (by decide) (by decide)
  exact h.1 rfl

/-- C8: on an election found by the lookup, the details request fails
with the election-not-started error exactly when now is before start_at,
and returns the election exactly when now is at or past start_at. -/
theorem details_window_check (db : List Election) (pk : Nat) (now : Int)
    (e : Election) (hfound : djangoGetElection db pk = some e) :
    (ElectionDetailsAPIView_get db pk now = .err .electionNotStarted
      ↔ now < e.start_at)
    ∧ (ElectionDetailsAPIView_get db pk now = .ok e ↔ e.start_at ≤ now) := by
  unfold ElectionDetailsAPIView_get
  rw [hfound]
  by_cases h : now < e.start_at
  · simp [h, not_le.mpr h]
  · simp [h, not_lt.mp h]

/-- Witness for the details window theorem: before start_at the request
is rejected as not started. -/
theorem details_window_check_witness :
    (ElectionDetailsAPIView_get [e0] 1 5 = .err .electionNotStarted
      ↔ (5 : Int) < e0.start_at)
    ∧ (ElectionDetailsAPIView_get [e0] 1 5 = .ok e0 ↔ e0.start_at ≤ (5 : Int)) :=
  details_window_check [e0] 1 5 e0 (by decide)
